import Mathlib

/-!
Shallow embedding of `app.py` from the `lucas-vivier/Barycentre` repository.

The program is a single Streamlit script.  We embed its core logic:

* the URL state codec (`_load_from_url_params`, the `json.dumps` call that
  writes `st.query_params["friends"]`),
* the friend-registry mutations (the add-form submit handler, the remove
  buttons, the "Clear all" button),
* the barycentre computation over geocoded entries,
* the geocoding / reverse-geocoding / routing wrappers and their
  exception-swallowing behaviour,
* the `st.cache_data` memoisation of `geocode_address`.

Python JSON values are modelled by the inductive type `Json`; numbers are
modelled as rationals (exact arithmetic).  `json.dumps` / `json.loads` are
modelled at the value level: a URL token is represented by its parse result
`Option Json` (`none` = the token is absent, empty or not valid JSON), and
encoding a registry produces the `Json` value that `json.dumps` would
serialise.  Network calls are modelled by explicit outcome types: the
provider's behaviour (success, zero results, timeout, unavailability, any
other exception) is an input to the embedded function.
-/

/-- JSON values as produced by Python's `json.loads`.  Objects are kept as
key/value lists; duplicate keys are resolved last-wins by `dictGet`, matching
Python's `json.loads`. -/
inductive Json where
  | null : Json
  | bool : Bool → Json
  | num : ℚ → Json
  | str : String → Json
  | arr : List Json → Json
  | obj : List (String × Json) → Json

/-- Python truthiness of a JSON value (`None`, `False`, `0`, `""`, `[]`, `{}`
are falsy, everything else truthy). -/
def pyTruthy : Json → Bool
  | .null => false
  | .bool b => b
  | .num q => decide (q ≠ 0)
  | .str s => decide (s ≠ "")
  | .arr xs => !xs.isEmpty
  | .obj kvs => !kvs.isEmpty

/-- `d.get(key)` on a Python dict represented as a key/value list: the last
binding of a key wins, as when `json.loads` builds a dict. -/
def dictGet : List (String × Json) → String → Option Json
  | [], _ => none
  | (k, v) :: rest, key =>
    match dictGet rest key with
    | some w => some w
    | none => if k = key then some v else none

/-- An entry of `st.session_state["friends"]`: a dict with the two keys
`"name"` and `"address"`.  Both entry-creating paths (the add form and
`_load_from_url_params`) build exactly these two keys; the decode path can
put arbitrary JSON values in them, so the fields are `Json`-valued. -/
structure Friend where
  name : Json
  address : Json

/-- The element-level part of the list comprehension in
`_load_from_url_params` (app.py lines 91-95): keep `f` iff it is a dict
whose `"address"` value is truthy, and build
`{"name": f.get("name", ""), "address": f.get("address", "")}`. -/
def decodeElem : Json → Option Friend
  | Json.obj kvs =>
    match dictGet kvs "address" with
    | some a =>
      if pyTruthy a then
        some { name := (dictGet kvs "name").getD (Json.str "")
               address := (dictGet kvs "address").getD (Json.str "") }
      else none
    | none => none
  | _ => none

/-- `_load_from_url_params` (app.py lines 84-98), at the JSON-value level.
The argument is the parse result of the `friends` URL parameter: `none` when
the parameter is absent, empty, or not valid JSON (the `except` branch);
`some j` when `json.loads` returned the value `j`.  A non-list value falls
through to `return None`. -/
def _load_from_url_params (friends_json : Option Json) : Option (List Friend)
 :=
  match friends_json with
  | some (Json.arr elems) => some (elems.filterMap decodeElem)
  | _ => none

/-- The dict literal serialised for one friend by
`json.dumps(st.session_state["friends"])` (app.py line 149). -/
def encodeFriend (f : Friend) : Json :=
  Json.obj [("name", f.name), ("address", f.address)]

/-- The JSON value written to `st.query_params["friends"]` (app.py line
149): the registry as a list of `{"name": ..., "address": ...}` dicts. -/
def encode_friends (friends : List Friend) : Json :=
  Json.arr (friends.map encodeFriend)

/-- Drop leading whitespace characters. -/
def dropLeadingWs : List Char → List Char
  | [] => []
  | c :: cs => if c.isWhitespace then dropLeadingWs cs else c :: cs

/-- Python's `str.strip()`: remove whitespace from both ends (model: ASCII
whitespace; the program only relies on stripping of spaces). -/
def pyStrip (s : String) : String :=
  String.mk ((dropLeadingWs (dropLeadingWs s.data).reverse).reverse)

/-- The add-form submit handler (app.py lines 120-124): if the stripped
address is non-empty, append `{"name": name.strip() or "Friend",
"address": address.strip()}`; otherwise nothing happens. -/
def add_friend (friends : List Friend) (name address : String) : List Friend
 :=
  if pyStrip address ≠ "" then
    friends ++ [{ name := Json.str (if pyStrip name = "" then "Friend" else pyStrip name)
                  address := Json.str (pyStrip address) }]
  else friends

/-- The remove button handler (app.py lines 139-141).  Buttons are created
only for `i` in `enumerate(st.session_state["friends"])`, so a removal
request for an out-of-range index has no rendered button and fires nothing:
`pop(i)` is only ever reached with `i < len(friends)`. -/
def remove_friend (friends : List Friend) (i : ℕ) : List Friend :=
  if i < friends.length then friends.eraseIdx i else friends

/-- One element of the `geocoded` list (app.py line 165):
`{**friend, "lat": coords[0], "lon": coords[1]}`. -/
structure GeocodedEntry where
  name : Json
  address : Json
  lat : ℚ
  lon : ℚ

/-- The barycentre computation (app.py lines 169-175): `None` unless at
least two entries geocoded, else the unweighted arithmetic mean of the
latitudes and the longitudes. -/
def barycentre_compute (geocoded : List GeocodedEntry) : Option (ℚ × ℚ) :=
  if 2 ≤ geocoded.length then
    some ((geocoded.map GeocodedEntry.lat).sum / geocoded.length,
          (geocoded.map GeocodedEntry.lon).sum / geocoded.length)
  else none

/-- Behaviour of one forward-geocoding provider call
(`geolocator.geocode`): success with coordinates, zero results, or one of
the exceptions caught in `geocode_address`. -/
inductive GeoOutcome where
  | found : ℚ → ℚ → GeoOutcome
  | noResult : GeoOutcome
  | timedOut : GeoOutcome
  | unavailable : GeoOutcome
  | otherError : GeoOutcome

/-- `geocode_address` (app.py lines 24-33), as a function of the provider
call's outcome: coordinates on success, `None` on zero results, and `None`
for every caught exception (`GeocoderTimedOut`, `GeocoderUnavailable`, and
the catch-all `Exception`). -/
def geocode_address : GeoOutcome → Option (ℚ × ℚ)
  | .found lat lon => some (lat, lon)
  | .noResult => none
  | .timedOut => none
  | .unavailable => none
  | .otherError => none

/-- Behaviour of one reverse-geocoding provider call
(`geolocator.reverse`). -/
inductive ReverseOutcome where
  | found : String → ReverseOutcome
  | noResult : ReverseOutcome
  | timedOut : ReverseOutcome
  | unavailable : ReverseOutcome
  | otherError : ReverseOutcome

/-- `reverse_geocode` (app.py lines 36-45), as a function of the input
coordinates and the provider call's outcome. -/
def reverse_geocode (_lat _lon : ℚ) : ReverseOutcome → Option String
  | .found addr => some addr
  | .noResult => none
  | .timedOut => none
  | .unavailable => none
  | .otherError => none

/-- One element of the OSRM `routes` list, with the fields `get_route_info`
reads.  Responses where `routes` is not a list of such objects make the
indexing or the arithmetic raise, which the catch-all `except` turns into
`None`; those malformed responses are folded into the `none` case of
`get_route_info`'s argument. -/
structure OsrmRoute where
  distance : ℚ
  duration : ℚ

/-- The parsed OSRM response: `code = data.get("code")` and the routes
list. -/
structure OsrmResponse where
  code : Option String
  routes : List OsrmRoute

/-- Python's built-in `round` to an integer: round half to even. -/
def pyRound0 (q : ℚ) : ℤ :=
  if q - ⌊q⌋ < 1 / 2 then ⌊q⌋
  else if (1 : ℚ) / 2 < q - ⌊q⌋ then ⌊q⌋ + 1
  else if 2 ∣ ⌊q⌋ then ⌊q⌋ else ⌊q⌋ + 1

/-- Python's `round(q, 1)`: round half to even at one decimal place. -/
def pyRound1 (q : ℚ) : ℚ := (pyRound0 (q * 10) : ℚ) / 10

/-- `get_route_info` (app.py lines 48-65), as a function of the fetched and
parsed response: `none` stands for any failure of the request or of JSON
parsing (the `except` branch); on a response, success needs
`data.get("code") == "Ok"` and a truthy (non-empty) `routes` list, and then
`distance / 1000` is rounded to 1 decimal and `duration / 60` to the
nearest integer.  Any other response yields `None`. -/
def get_route_info (resp : Option OsrmResponse) : Option (ℚ × ℚ) :=
  match resp with
  | some data =>
    match data.routes with
    | route :: _ =>
      if data.code = some "Ok" then
        some (pyRound1 (route.distance / 1000), (pyRound0 (route.duration / 60) : ℚ))
      else none
    | [] => none
  | none => none

/-- The `@st.cache_data` memoisation of `geocode_address`: the cache maps
the exact input string to the stored result (including a stored `None`).
One call takes the current cache and the outcome the provider would give if
contacted, and returns the result, the new cache, and the number of
provider requests issued (0 on a hit, 1 on a miss). -/
def geocode_cached (cache : List (String × Option (ℚ × ℚ))) (address : String)
    (outcome : GeoOutcome) :
    Option (ℚ × ℚ) × List (String × Option (ℚ × ℚ)) × ℕ :=
  match cache.lookup address with
  | some r => (r, cache, 0)
  | none => (geocode_address outcome, (address, geocode_address outcome) :: cache, 1)

/-- The state the script synchronises on each run: the session registry and
the (parsed) `friends` URL parameter. -/
structure AppState where
  friends : List Friend
  urlToken : Option Json

/-- A user interaction triggering a rerun: the add form, a remove button,
"Clear all", or a plain refresh. -/
inductive UserAction where
  | addFriend : String → String → UserAction
  | removeFriend : ℕ → UserAction
  | clearAll : UserAction
  | plainRefresh : UserAction

/-- Effect of a user action on `st.session_state["friends"]` (the add
handler, the remove buttons, `st.session_state["friends"] = []`). -/
def applyAction (friends : List Friend) : UserAction → List Friend
  | .addFriend n a => add_friend friends n a
  | .removeFriend i => remove_friend friends i
  | .clearAll => []
  | .plainRefresh => friends

/-- URL synchronisation on a script run (app.py lines 148-153): when the
registry is truthy (non-empty) the parameter is set to its encoding, else
the parameter is deleted. -/
def syncUrl (friends : List Friend) : Option Json :=
  if friends.isEmpty then none else some (encode_friends friends)

/-- One full rerun after a user action: the mutation handler runs, then the
sidebar sets or deletes `st.query_params["friends"]`. -/
def refresh (s : AppState) (act : UserAction) : AppState :=
  { friends := applyAction s.friends act
    urlToken := syncUrl (applyAction s.friends act) }

/-- Session-state seeding on load (app.py lines 101-103):
`url_friends if url_friends else []`. -/
def seedFriends (url : Option Json) : List Friend :=
  match _load_from_url_params url with
  | some fs => if fs.isEmpty then [] else fs
  | none => []

/-- Whether a JSON value is a non-empty string (used to state what the
registry invariant is not). -/
def isNonemptyString : Json → Bool
  | .str s => decide (s ≠ "")
  | _ => false

/-! ## Theorems -/

/-- C2: `barycentre_compute` returns `none` (Absent) on fewer than two
geocoded entries, and otherwise the unweighted arithmetic mean of the
latitudes and of the longitudes; on the two entries `(48, 2)` and `(49, 3)`
it returns `(48.5, 2.5)`. -/
theorem c2_barycentre_mean :
    (∀ es : List GeocodedEntry, es.length < 2 → barycentre_compute es = none) ∧
    (∀ es : List GeocodedEntry, 2 ≤ es.length →
      barycentre_compute es =
        some ((es.map GeocodedEntry.lat).sum / es.length,
              (es.map GeocodedEntry.lon).sum / es.length)) ∧
    barycentre_compute
        [⟨Json.str "A", Json.str "a", 48, 2⟩, ⟨Json.str "B", Json.str "b", 49, 3⟩]
      = some (48.5, 2.5) := by
  refine ⟨?_, ?_, ?_⟩
  · intro es h
    simp [barycentre_compute, Nat.not_le.mpr h]
  · intro es h
    simp [barycentre_compute, h]
  · norm_num [barycentre_compute]

/-- Witness for C2 at concrete inputs. -/
theorem c2_barycentre_mean_witness :
    barycentre_compute [⟨Json.str "A", Json.str "a", 48, 2⟩] = none ∧
    barycentre_compute
        [⟨Json.str "A", Json.str "a", 48, 2⟩, ⟨Json.str "B", Json.str "b", 49, 3⟩]
      = some ((48 + 49) / 2, (2 + 3) / 2) := by
  constructor
  · exact c2_barycentre_mean.1 _ (by norm_num)
  · have h := c2_barycentre_mean.2.1
      [⟨Json.str "A", Json.str "a", 48, 2⟩, ⟨Json.str "B", Json.str "b", 49, 3⟩]
      (by norm_num)
    simpa using h

/-- C4: `remove_friend` is a no-op (no mutation) on an out-of-range index,
and on an in-range index removes exactly the entry at that position, later
entries shifting down by one. -/
theorem c4_remove_at (friends : List Friend) (i : ℕ) :
    (friends.length ≤ i → remove_friend friends i = friends) ∧
    (i < friends.length →
      remove_friend friends i = friends.take i ++ friends.drop (i + 1)) := by
  constructor
  · intro h
    simp [remove_friend, Nat.not_lt.mpr h]
  · intro h
    simp [remove_friend, h, List.eraseIdx_eq_take_drop_succ]

/-- Witness for C4: removal at index 2 of a 2-element registry is a no-op;
removal at index 0 drops exactly the first entry. -/
theorem c4_remove_at_witness :
    remove_friend [⟨Json.str "A", Json.str "x"⟩, ⟨Json.str "B", Json.str "y"⟩] 2
      = [⟨Json.str "A", Json.str "x"⟩, ⟨Json.str "B", Json.str "y"⟩] ∧
    remove_friend [⟨Json.str "A", Json.str "x"⟩, ⟨Json.str "B", Json.str "y"⟩] 0
      = [⟨Json.str "B", Json.str "y"⟩] := by
  constructor
  · exact (c4_remove_at _ 2).1 (by norm_num)
  · simpa using (c4_remove_at _ 0).2 (by norm_num)

/-- C5: `add_friend` trims both fields; a whitespace-only address makes it
a no-op, otherwise exactly one entry is appended at the end, with the
trimmed address and the trimmed name (or `"Friend"` when the trimmed name
is empty). -/
theorem c5_add (friends : List Friend) (n a : String) :
    (pyStrip a = "" → add_friend friends n a = friends) ∧
    (pyStrip a ≠ "" →
      add_friend friends n a =
        friends ++
          [{ name := Json.str (if pyStrip n = "" then "Friend" else pyStrip n)
             address := Json.str (pyStrip a) }] ∧
      (add_friend friends n a).length = friends.length + 1) := by
  constructor
  · intro h
    simp [add_friend, h]
  · intro h
    refine ⟨by simp [add_friend, h], ?_⟩
    simp [add_friend, h]

/-- Witness for C5: adding with a whitespace-only address is a no-op;
adding a blank name and the address `" Paris "` appends
`{"name": "Friend", "address": "Paris"}`. -/
theorem c5_add_witness :
    add_friend [] "A" "   " = [] ∧
    add_friend [] "  " " Paris "
      = [{ name := Json.str "Friend", address := Json.str "Paris" }] := by
  constructor
  · exact (c5_add [] "A" "   ").1 rfl
  · have h := ((c5_add [] "  " " Paris ").2 (by decide)).1
    simpa [show pyStrip "  " = "" from rfl, show pyStrip " Paris " = "Paris" from rfl]
      using h

/-- C6: `get_route_info` yields a result only for a fetched response with
`code = "Ok"` and a non-empty route list, converting metres to kilometres
rounded to 1 decimal and seconds to minutes rounded to the nearest integer;
every other response (including a failed or unparseable fetch) yields
`none`; the response `{distance := 5000, duration := 600}` yields
`(5.0, 10)`. -/
theorem c6_route_metrics :
    get_route_info none = none ∧
    (∀ data : OsrmResponse, data.code ≠ some "Ok" → get_route_info (some data) = none) ∧
    (∀ data : OsrmResponse, data.routes = [] → get_route_info (some data) = none) ∧
    (∀ (data : OsrmResponse) (r : OsrmRoute) (rest : List OsrmRoute),
      data.code = some "Ok" → data.routes = r :: rest →
      get_route_info (some data) =
        some (pyRound1 (r.distance / 1000), (pyRound0 (r.duration / 60) : ℚ))) ∧
    get_route_info (some ⟨some "Ok", [⟨5000, 600⟩]⟩) = some (5, 10) := by
  refine ⟨rfl, ?_, ?_, ?_, ?_⟩
  · intro data h
    cases hr : data.routes with
    | nil => simp [get_route_info, hr]
    | cons r rest => simp [get_route_info, hr, h]
  · intro data h
    simp [get_route_info, h]
  · intro data r rest hc hr
    simp [get_route_info, hr, hc]
  · norm_num [get_route_info, pyRound1, pyRound0]

/-- Witness for C6: a response with `code = "Ok"` and one route `(2500 m,
90 s)` produces the rounded conversions. -/
theorem c6_route_metrics_witness :
    get_route_info (some ⟨some "Ok", [⟨2500, 90⟩]⟩)
      = some (pyRound1 (2500 / 1000), (pyRound0 (90 / 60) : ℚ)) :=
  c6_route_metrics.2.2.2.1 ⟨some "Ok", [⟨2500, 90⟩]⟩ ⟨2500, 90⟩ [] rfl rfl

/-- C7: the three network wrappers are total: on a successful provider
outcome they return the value, and on every failure outcome (zero results,
timeout, unavailability, any other exception) they return `none`
(Unresolved) rather than letting the exception escape. -/
theorem c7_total_unresolved :
    (∀ lat lon : ℚ, geocode_address (GeoOutcome.found lat lon) = some (lat, lon)) ∧
    geocode_address GeoOutcome.noResult = none ∧
    geocode_address GeoOutcome.timedOut = none ∧
    geocode_address GeoOutcome.unavailable = none ∧
    geocode_address GeoOutcome.otherError = none ∧
    (∀ lat lon : ℚ, ∀ addr : String,
      reverse_geocode lat lon (ReverseOutcome.found addr) = some addr) ∧
    (∀ lat lon : ℚ,
      reverse_geocode lat lon ReverseOutcome.noResult = none ∧
      reverse_geocode lat lon ReverseOutcome.timedOut = none ∧
      reverse_geocode lat lon ReverseOutcome.unavailable = none ∧
      reverse_geocode lat lon ReverseOutcome.otherError = none) ∧
    get_route_info none = none :=
  ⟨fun _ _ => rfl, rfl, rfl, rfl, rfl, fun _ _ _ => rfl,
   fun _ _ => ⟨rfl, rfl, rfl, rfl⟩, rfl⟩

/-- C8: calling the cached geocoder twice with the identical address
returns the first call's result the second time (even when that result was
`none`) and issues at most one provider request in total; the second call
issues none. -/
theorem c8_cache_two_calls (cache : List (String × Option (ℚ × ℚ)))
    (address : String) (o1 o2 : GeoOutcome) :
    (geocode_cached (geocode_cached cache address o1).2.1 address o2).1
        = (geocode_cached cache address o1).1 ∧
    (geocode_cached (geocode_cached cache address o1).2.1 address o2).2.2 = 0 ∧
    (geocode_cached cache address o1).2.2 +
      (geocode_cached (geocode_cached cache address o1).2.1 address o2).2.2 ≤ 1 := by
  cases h : cache.lookup address with
  | some r => simp [geocode_cached, h]
  | none => simp [geocode_cached, h, List.lookup]

/-- Decoding the encoded form of one friend whose address is a non-empty
string gives back exactly that friend. -/
theorem decodeElem_encodeFriend (f : Friend) (s : String)
    (hs : f.address = Json.str s) (hne : s ≠ "") :
    decodeElem (encodeFriend f) = some f := by
  cases f with
  | mk nm ad =>
    simp only at hs
    subst hs
    simp [decodeElem, encodeFriend, dictGet, pyTruthy, hne]

/-- Element-wise round trip for a whole registry with non-empty string
addresses. -/
theorem decode_encode_list (X : List Friend)
    (h : ∀ f ∈ X, ∃ s : String, f.address = Json.str s ∧ s ≠ "") :
    (X.map encodeFriend).filterMap decodeElem = X := by
  induction X with
  | nil => rfl
  | cons f xs ih =>
    obtain ⟨s, hs, hne⟩ := h f (List.mem_cons_self f xs)
    simp [List.filterMap_cons, decodeElem_encodeFriend f s hs hne,
      ih fun g hg => h g (List.mem_cons_of_mem f hg)]

/-- C1: decoding the token produced by encoding a registry whose addresses
are all non-empty strings yields exactly the registry: same length, same
order, identical name and address values. -/
theorem c1_round_trip (X : List Friend)
    (h : ∀ f ∈ X, ∃ s : String, f.address = Json.str s ∧ s ≠ "") :
    _load_from_url_params (some (encode_friends X)) = some X := by
  simp [_load_from_url_params, encode_friends, decode_encode_list X h]

/-- Witness for C1 on a registry with a non-ASCII name and an empty name. -/
theorem c1_round_trip_witness :
    _load_from_url_params (some (encode_friends
        [⟨Json.str "Zoé", Json.str "10 Rue de Rivoli, Paris"⟩,
         ⟨Json.str "", Json.str "Lyon"⟩]))
      = some [⟨Json.str "Zoé", Json.str "10 Rue de Rivoli, Paris"⟩,
              ⟨Json.str "", Json.str "Lyon"⟩] :=
  c1_round_trip _ (by
    intro f hf
    simp only [List.mem_cons, List.not_mem_nil, or_false] at hf
    rcases hf with rfl | rfl
    · exact ⟨"10 Rue de Rivoli, Paris", rfl, by decide⟩
    · exact ⟨"Lyon", rfl, by decide⟩)

/-- C3: the decoder is defensive element by element: an absent/unparseable
token or a non-list value yields `none` (Absent); a dropped element (one
`decodeElem` rejects) is removed without disturbing the other elements or
their order; an object with no `"name"` key but a truthy `"address"`
decodes with name `""`; the token
`[{"name":"A","address":"X"},{"name":"B"}]` decodes to exactly
`[{name:"A", address:"X"}]`. -/
theorem c3_decode_defensive :
    _load_from_url_params none = none ∧
    (∀ j : Json, (∀ xs : List Json, j ≠ Json.arr xs) →
      _load_from_url_params (some j) = none) ∧
    (∀ (pre post : List Json) (x : Json), decodeElem x = none →
      _load_from_url_params (some (Json.arr (pre ++ x :: post)))
        = _load_from_url_params (some (Json.arr (pre ++ post)))) ∧
    (∀ (kvs : List (String × Json)) (a : Json), dictGet kvs "name" = none →
      dictGet kvs "address" = some a → pyTruthy a = true →
      decodeElem (Json.obj kvs) = some { name := Json.str "", address := a }) ∧
    _load_from_url_params (some (Json.arr
        [Json.obj [("name", Json.str "A"), ("address", Json.str "X")],
         Json.obj [("name", Json.str "B")]]))
      = some [{ name := Json.str "A", address := Json.str "X" }] := by
  refine ⟨rfl, ?_, ?_, ?_, rfl⟩
  · intro j hj
    cases j with
    | arr xs => exact absurd rfl (hj xs)
    | null => rfl
    | bool b => rfl
    | num q => rfl
    | str s => rfl
    | obj kvs => rfl
  · intro pre post x hx
    simp [_load_from_url_params, List.filterMap_append, List.filterMap_cons, hx]
  · intro kvs a hn ha ht
    simp [decodeElem, ha, ht, hn]

/-- Witness for C3: a non-object element is dropped without affecting the
rest of the list. -/
theorem c3_decode_defensive_witness :
    _load_from_url_params
        (some (Json.arr [Json.num 5, Json.obj [("address", Json.str "X")]]))
      = _load_from_url_params
          (some (Json.arr [Json.obj [("address", Json.str "X")]])) :=
  c3_decode_defensive.2.2.1 [] [Json.obj [("address", Json.str "X")]]
    (Json.num 5) rfl

/-- C9: after any user action the rerun leaves the URL parameter equal to
the encoding of the registry when the registry is non-empty and absent when
it is empty; on load, an absent parameter seeds an empty registry and a
decodable parameter seeds its decoded registry. -/
theorem c9_url_sync (s : AppState) (act : UserAction) :
    ((refresh s act).friends = [] → (refresh s act).urlToken = none) ∧
    ((refresh s act).friends ≠ [] →
      (refresh s act).urlToken = some (encode_friends (refresh s act).friends)) ∧
    seedFriends none = [] ∧
    (∀ (j : Json) (fs : List Friend),
      _load_from_url_params (some j) = some fs → seedFriends (some j) = fs) := by
  refine ⟨?_, ?_, rfl, ?_⟩
  · intro h
    show syncUrl (applyAction s.friends act) = none
    rw [show applyAction s.friends act = [] from h]
    rfl
  · intro h
    show syncUrl (applyAction s.friends act)
        = some (encode_friends (applyAction s.friends act))
    cases hF : applyAction s.friends act with
    | nil => exact absurd hF h
    | cons f l => rfl
  · intro j fs h
    unfold seedFriends
    rw [h]
    cases fs <;> rfl

/-- Witness for C9: adding a friend to an empty state leaves the URL set to
the registry's encoding, and a one-entry token seeds a one-entry registry. -/
theorem c9_url_sync_witness :
    (refresh ⟨[], none⟩ (UserAction.addFriend "Alice" "Paris")).urlToken
      = some (encode_friends
          (refresh ⟨[], none⟩ (UserAction.addFriend "Alice" "Paris")).friends) ∧
    seedFriends (some (Json.arr
        [Json.obj [("name", Json.str "A"), ("address", Json.str "X")]]))
      = [{ name := Json.str "A", address := Json.str "X" }] := by
  constructor
  · exact (c9_url_sync ⟨[], none⟩ (UserAction.addFriend "Alice" "Paris")).2.1
      (by
        rw [show (refresh ⟨[], none⟩ (UserAction.addFriend "Alice" "Paris")).friends
            = [{ name := Json.str "Alice", address := Json.str "Paris" }] from rfl]
        simp)
  · exact (c9_url_sync ⟨[], none⟩ UserAction.clearAll).2.2.2
      (Json.arr [Json.obj [("name", Json.str "A"), ("address", Json.str "X")]])
      [{ name := Json.str "A", address := Json.str "X" }] rfl

/-- Every friend produced by `decodeElem` has a truthy address value. -/
theorem pyTruthy_of_decodeElem (x : Json) (f : Friend)
    (h : decodeElem x = some f) : pyTruthy f.address = true := by
  cases x with
  | obj kvs =>
    simp only [decodeElem] at h
    cases ha : dictGet kvs "address" with
    | none => simp [ha] at h
    | some a =>
      cases htr : pyTruthy a with
      | false => simp [ha, htr] at h
      | true =>
        simp only [ha, htr, if_true] at h
        injection h with h2
        subst h2
        simp [ha, htr]
  | null => exact Option.noConfusion h
  | bool b => exact Option.noConfusion h
  | num q => exact Option.noConfusion h
  | str s => exact Option.noConfusion h
  | arr xs => exact Option.noConfusion h

/-- C10 counterexample: the token `[{"address": 5}]` decodes to a registry
entry whose address is the number `5`, not a non-empty string, so the
invariant guaranteed by all entry-creating paths is weaker than
"address is a non-empty string". -/
theorem c10_counterexample :
    _load_from_url_params (some (Json.arr [Json.obj [("address", Json.num 5)]]))
      = some [{ name := Json.str "", address := Json.num 5 }] ∧
    isNonemptyString (Json.num 5) = false := ⟨rfl, rfl⟩

/-- C10 (amended): the decoder trims nothing — string fields pass through
exactly, so a whitespace-only address is accepted by decode even though
`add_friend` rejects it; the invariant common to both entry-creating paths
is only that the address value is truthy (when it is a string, non-empty —
but it need not be a string at all), not that it is non-blank after
trimming. -/
theorem c10_no_trim :
    (∀ n a : String, a ≠ "" →
      decodeElem (Json.obj [("name", Json.str n), ("address", Json.str a)])
        = some { name := Json.str n, address := Json.str a }) ∧
    _load_from_url_params (some (Json.arr
        [Json.obj [("name", Json.str "A"), ("address", Json.str "   ")]]))
      = some [{ name := Json.str "A", address := Json.str "   " }] ∧
    (∀ friends : List Friend, add_friend friends "A" "   " = friends) ∧
    (∀ (tok : Option Json) (fs : List Friend),
      _load_from_url_params tok = some fs → ∀ f ∈ fs, pyTruthy f.address = true) ∧
    (∀ (friends : List Friend) (n a : String), ∀ f ∈ add_friend friends n a,
      f ∈ friends ∨ pyTruthy f.address = true) := by
  refine ⟨?_, rfl, ?_, ?_, ?_⟩
  · intro n a hne
    exact decodeElem_encodeFriend ⟨Json.str n, Json.str a⟩ a rfl hne
  · intro friends
    simp [add_friend, show pyStrip "   " = "" from rfl]
  · intro tok fs h f hf
    cases tok with
    | none => exact Option.noConfusion h
    | some j =>
      cases j with
      | arr elems =>
        injection h with h2
        subst h2
        obtain ⟨x, hx, hdec⟩ := List.mem_filterMap.mp hf
        exact pyTruthy_of_decodeElem x f hdec
      | null => exact Option.noConfusion h
      | bool b => exact Option.noConfusion h
      | num q => exact Option.noConfusion h
      | str s => exact Option.noConfusion h
      | obj kvs => exact Option.noConfusion h
  · intro friends n a f hf
    unfold add_friend at hf
    by_cases hc : pyStrip a ≠ ""
    · rw [if_pos hc] at hf
      rcases List.mem_append.mp hf with hmem | hmem
      · exact Or.inl hmem
      · refine Or.inr ?_
        simp only [List.mem_singleton] at hmem
        subst hmem
        simp [pyTruthy, hc]
    · rw [if_neg hc] at hf
      exact Or.inl hf

/-- Witness for C10: a single-space address passes through decode
unchanged. -/
theorem c10_no_trim_witness :
    decodeElem (Json.obj [("name", Json.str "A"), ("address", Json.str " ")])
      = some { name := Json.str "A", address := Json.str " " } :=
  c10_no_trim.1 "A" " " (by decide)
